import Mathlib

/-!
Shallow embedding of the ST7735S display driver
(repository pi_cam, file src/display_driver.py, class ST7735Display).

Pure pixel-format code becomes Lean functions on Nat; the stateful driver
object becomes explicit state passing over a DriverState record; the bus
and GPIO side effects become an event trace; the one exception source
(spidev raising once the SPI device has been closed) becomes an explicit
error value threaded through each operation.
-/

namespace ST7735

/-- An RGB triple as PIL getdata yields it: components in 0..255. -/
structure RGB where
  r : Nat
  g : Nat
  b : Nat
deriving DecidableEq

/-- Panel width in pixels (self.WIDTH in the constructor). -/
def WIDTH : Nat := 128

/-- Panel height in pixels (self.HEIGHT in the constructor). -/
def HEIGHT : Nat := 128

/-- The 16-bit 5-6-5 packed value computed per pixel inside update():
r565 = (r >> 3) << 11; g565 = (g >> 2) << 5; b565 = b >> 3;
rgb565 = r565 | g565 | b565. -/
def rgb565 (p : RGB) : Nat :=
  ((p.r >>> 3) <<< 11) ||| ((p.g >>> 2) <<< 5) ||| (p.b >>> 3)

/-- The two bytes update() appends per pixel, high byte first:
(rgb565 >> 8) & 0xFF then rgb565 & 0xFF. -/
def encodePixel (p : RGB) : List Nat :=
  [(rgb565 p >>> 8) &&& 0xFF, rgb565 p &&& 0xFF]

/-- The in-memory image contents: pixel lookup by (x, y). -/
def Buffer : Type := Nat → Nat → RGB

/-- The all-black image the constructor allocates. -/
def blackBuf : Buffer := fun _ _ => ⟨0, 0, 0⟩

/-- Row-major RGB565 byte stream of the whole buffer, exactly as update()
builds rgb565_data from list(rgb_image.getdata()). -/
def encodeBuffer (buf : Buffer) : List Nat :=
  (List.range HEIGHT).flatMap fun y =>
    (List.range WIDTH).flatMap fun x => encodePixel (buf x y)

/-- The chunks data[i:i+n] for i in range(0, len(data), n), as sliced by
_send_data with n = 4096. -/
def chunksOf (n : Nat) (l : List Nat) : List (List Nat) :=
  (List.range ((l.length + n - 1) / n)).map fun i => (l.drop (i * n)).take n

/-- Observable side effects of the driver on GPIO, the SPI bus and the clock. -/
inductive Event where
  | gpioReset : Bool → Event
  | gpioDC : Bool → Event
  | sleepMs : Nat → Event
  | spiWrite : List Nat → Event
  | spiClose : Event
deriving DecidableEq

/-- The one modelled exception: spidev raises on transfers once closed. -/
inductive PyError where
  | transportClosed : PyError
deriving DecidableEq

/-- Driver object state. PIL Image objects are modelled as a heap of
buffers addressed by object identity, because flash_screen rebinds
self.image while self.draw keeps targeting the object it was created on. -/
structure DriverState where
  heap : Nat → Buffer
  nextRef : Nat
  imageRef : Nat
  drawRef : Nat
  spiOpen : Bool
  trace : List Event

/-- State right after the constructor: one black image, self.image and
self.draw both on it, SPI opened. -/
def initialState : DriverState :=
  { heap := fun _ => blackBuf, nextRef := 1, imageRef := 0, drawRef := 0,
    spiOpen := true, trace := [] }

/-- Record one side effect. -/
def emit (e : Event) (s : DriverState) : DriverState :=
  { s with trace := s.trace ++ [e] }

/-- spi.xfer2(bytes): writes on the open bus, raises once closed. -/
def spiXfer (bytes : List Nat) (s : DriverState) : Option PyError × DriverState :=
  if s.spiOpen then (none, emit (.spiWrite bytes) s)
  else (some .transportClosed, s)

/-- _send_command(cmd, data): DC low, write the opcode; if parameter bytes
exist, DC high and write them as one further transfer. -/
def sendCommand (cmd : Nat) (data : List Nat) (s : DriverState) :
    Option PyError × DriverState :=
  match spiXfer [cmd] (emit (.gpioDC false) s) with
  | (some e, s1) => (some e, s1)
  | (none, s1) =>
      if data.isEmpty then (none, s1)
      else spiXfer data (emit (.gpioDC true) s1)

/-- The chunk loop body of _send_data. -/
def sendChunks (chunks : List (List Nat)) (s : DriverState) :
    Option PyError × DriverState :=
  match chunks with
  | [] => (none, s)
  | c :: rest =>
      match spiXfer c s with
      | (some e, s1) => (some e, s1)
      | (none, s1) => sendChunks rest s1

/-- _send_data(data): DC high, then the stream in 4096-byte chunks. -/
def sendData (data : List Nat) (s : DriverState) : Option PyError × DriverState :=
  sendChunks (chunksOf 4096 data) (emit (.gpioDC true) s)

/-- PIL ImageDraw.rectangle([(x0, y0), (x1, y1)], fill): fills the region
inclusive of both corner coordinates. -/
def setRegion (x0 y0 x1 y1 : Int) (c : RGB) (buf : Buffer) : Buffer :=
  fun px py =>
    if x0 ≤ (px : Int) ∧ (px : Int) ≤ x1 ∧ y0 ≤ (py : Int) ∧ (py : Int) ≤ y1
    then c else buf px py

/-- Mutation through self.draw: it acts on the object self.draw was
created on, not on whatever self.image currently names. -/
def mutateDraw (f : Buffer → Buffer) (s : DriverState) : DriverState :=
  { s with heap := fun i => if i = s.drawRef then f (s.heap s.drawRef) else s.heap i }

/-- clear(color): draw.rectangle([(0, 0), (WIDTH, HEIGHT)], fill=color). -/
def clear (c : RGB) (s : DriverState) : DriverState :=
  mutateDraw (setRegion 0 0 (WIDTH : Int) (HEIGHT : Int) c) s

/-- draw_rectangle(x, y, width, height, color) with outline=None:
draw.rectangle([(x, y), (x + width, y + height)], fill=color). -/
def drawRectangle (x y w h : Int) (c : RGB) (s : DriverState) : DriverState :=
  mutateDraw (setRegion x y (x + w) (y + h) c) s

/-- The buffer update() converts and transmits (self.image). -/
def bufAt (s : DriverState) : Buffer := s.heap s.imageRef

/-- The buffer the drawing primitives mutate (the ImageDraw target). -/
def drawBufAt (s : DriverState) : Buffer := s.heap s.drawRef

/-- update(): encode self.image, send RAMWR (0x2C), stream the bytes. -/
def update (s : DriverState) : Option PyError × DriverState :=
  match sendCommand 0x2C [] s with
  | (some e, s1) => (some e, s1)
  | (none, s1) => sendData (encodeBuffer (bufAt s)) s1

/-- flash_screen(color, duration): copy self.image, clear to the color,
update, sleep, rebind self.image to the copy, update again. The ImageDraw
handle self.draw is not recreated. -/
def flashScreen (c : RGB) (durationMs : Nat) (s : DriverState) :
    Option PyError × DriverState :=
  let orig := bufAt s
  let n := s.nextRef
  let s1 : DriverState :=
    { s with heap := fun i => if i = n then orig else s.heap i, nextRef := n + 1 }
  let s2 := clear c s1
  match update s2 with
  | (some e, s3) => (some e, s3)
  | (none, s3) =>
      let s4 := emit (.sleepMs durationMs) s3
      let s5 : DriverState := { s4 with imageRef := n }
      update s5

/-- The try block of cleanup(): clear, update, spi.close(), reset low. -/
def cleanupBody (s : DriverState) : Option PyError × DriverState :=
  match update (clear ⟨0, 0, 0⟩ s) with
  | (some e, s2) => (some e, s2)
  | (none, s2) =>
      let s3 : DriverState :=
        { s2 with spiOpen := false, trace := s2.trace ++ [.spiClose] }
      (none, emit (.gpioReset false) s3)

/-- cleanup(): runs the body and swallows (merely logs) any exception. -/
def cleanup (s : DriverState) : DriverState := (cleanupBody s).2

/-- One line of the init_display() script. -/
inductive Step where
  | gpioR : Bool → Step
  | wait : Nat → Step
  | cmd : Nat → List Nat → Step

/-- Execute one script line. -/
def runStep (st : Step) (s : DriverState) : Option PyError × DriverState :=
  match st with
  | .gpioR lv => (none, emit (.gpioReset lv) s)
  | .wait ms => (none, emit (.sleepMs ms) s)
  | .cmd c d => sendCommand c d s

/-- Execute a script, stopping at the first raised error. -/
def runSteps (l : List Step) (s : DriverState) : Option PyError × DriverState :=
  match l with
  | [] => (none, s)
  | st :: rest =>
      match runStep st s with
      | (some e, s1) => (some e, s1)
      | (none, s1) => runSteps rest s1

/-- init_display() line for line: hard reset pulse with its sleeps, SWRESET,
SLPOUT, the configuration table, CASET/RASET, gamma, NORON, DISPON. -/
def initSteps : List Step := [
  .gpioR true, .wait 10, .gpioR false, .wait 10, .gpioR true, .wait 120,
  .cmd 0x01 [], .wait 150,
  .cmd 0x11 [], .wait 500,
  .cmd 0xB1 [0x01, 0x2C, 0x2D],
  .cmd 0xB2 [0x01, 0x2C, 0x2D],
  .cmd 0xB3 [0x01, 0x2C, 0x2D, 0x01, 0x2C, 0x2D],
  .cmd 0xB4 [0x07],
  .cmd 0xC0 [0xA2, 0x02, 0x84],
  .cmd 0xC1 [0xC5],
  .cmd 0xC2 [0x0A, 0x00],
  .cmd 0xC3 [0x8A, 0x2A],
  .cmd 0xC4 [0x8A, 0xEE],
  .cmd 0xC5 [0x0E],
  .cmd 0x20 [],
  .cmd 0x36 [0x00],
  .cmd 0x3A [0x05],
  .cmd 0x2A [0x00, 0x00, 0x00, 0x7F],
  .cmd 0x2B [0x00, 0x00, 0x00, 0x7F],
  .cmd 0xE0 [0x02, 0x1c, 0x07, 0x12, 0x37, 0x32, 0x29, 0x2d,
             0x29, 0x25, 0x2B, 0x39, 0x00, 0x01, 0x03, 0x10],
  .cmd 0xE1 [0x03, 0x1d, 0x07, 0x06, 0x2E, 0x2C, 0x29, 0x2D,
             0x2E, 0x2E, 0x37, 0x3F, 0x00, 0x00, 0x02, 0x10],
  .cmd 0x13 [], .wait 10,
  .cmd 0x29 [], .wait 120]

/-- init_display(): the script, then self.clear() and self.update(). -/
def initDisplay (s : DriverState) : Option PyError × DriverState :=
  match runSteps initSteps s with
  | (some e, s1) => (some e, s1)
  | (none, s1) => update (clear ⟨0, 0, 0⟩ s1)

/-- Key set of the font cache built by load_fonts (both the TrueType path
and the default-font fallback use exactly these sizes). -/
def supportedSizes : List Nat := [8, 9, 10, 12, 14, 16, 20, 24]

/-- The font size draw_text actually rasterizes with:
self.fonts.get(size, self.fonts.get(10)). -/
def fontKeyFor (size : Nat) : Nat :=
  if size ∈ supportedSizes then size else 10

/-- The two bytes pixel (px, py) contributes to the update() stream. -/
def pixelStreamBytes (s : DriverState) (px py : Nat) : List Nat :=
  ((encodeBuffer (bufAt s)).drop (2 * (WIDTH * py + px))).take 2

/-- The bus events one update() appends when the SPI device is open. -/
def updateTraceEvents (buf : Buffer) : List Event :=
  [.gpioDC false, .spiWrite [0x2C], .gpioDC true] ++
    (chunksOf 4096 (encodeBuffer buf)).map Event.spiWrite

/-- The bus events of one _send_command call. -/
def cmdEvents (cmd : Nat) (params : List Nat) : List Event :=
  if params.isEmpty then [.gpioDC false, .spiWrite [cmd]]
  else [.gpioDC false, .spiWrite [cmd], .gpioDC true, .spiWrite params]

/-- The hard-reset pulse opening init_display: reset high, low, high, with
the two settling delays of interest. -/
def hardResetEvents (tLow tHigh : Nat) : List Event :=
  [.gpioReset true, .sleepMs 10, .gpioReset false, .sleepMs tLow,
   .gpioReset true, .sleepMs tHigh]

/-- The fixed configuration command table of init_display between SLPOUT and
the addressing window: frame rate, inversion, power, VCOM, INVOFF, MADCTL,
COLMOD (16-bit pixel format). -/
def configEvents : List Event :=
  cmdEvents 0xB1 [0x01, 0x2C, 0x2D] ++ cmdEvents 0xB2 [0x01, 0x2C, 0x2D] ++
  cmdEvents 0xB3 [0x01, 0x2C, 0x2D, 0x01, 0x2C, 0x2D] ++ cmdEvents 0xB4 [0x07] ++
  cmdEvents 0xC0 [0xA2, 0x02, 0x84] ++ cmdEvents 0xC1 [0xC5] ++
  cmdEvents 0xC2 [0x0A, 0x00] ++ cmdEvents 0xC3 [0x8A, 0x2A] ++
  cmdEvents 0xC4 [0x8A, 0xEE] ++ cmdEvents 0xC5 [0x0E] ++
  cmdEvents 0x20 [] ++ cmdEvents 0x36 [0x00] ++ cmdEvents 0x3A [0x05]

/-- CASET and RASET: the addressing window, tied to the buffer extent. -/
def windowEvents : List Event :=
  cmdEvents 0x2A [0x00, 0x00, 0x00, WIDTH - 1] ++
  cmdEvents 0x2B [0x00, 0x00, 0x00, HEIGHT - 1]

/-- Gamma tables and NORON between the window and DISPON. -/
def gammaNoronEvents : List Event :=
  cmdEvents 0xE0 [0x02, 0x1c, 0x07, 0x12, 0x37, 0x32, 0x29, 0x2d,
                  0x29, 0x25, 0x2B, 0x39, 0x00, 0x01, 0x03, 0x10] ++
  cmdEvents 0xE1 [0x03, 0x1d, 0x07, 0x06, 0x2E, 0x2C, 0x29, 0x2D,
                  0x2E, 0x2E, 0x37, 0x3F, 0x00, 0x00, 0x02, 0x10] ++
  cmdEvents 0x13 [] ++ [.sleepMs 10]

/-- All events of the init_display() command script up to the DISPON wait,
with the sleeps the code performs. -/
def initScriptTrace : List Event :=
  hardResetEvents 10 120 ++
  (cmdEvents 0x01 [] ++ [.sleepMs 150]) ++
  (cmdEvents 0x11 [] ++ [.sleepMs 500]) ++
  configEvents ++ windowEvents ++ gammaNoronEvents ++
  (cmdEvents 0x29 [] ++ [.sleepMs 120])

/-- The driver state of the documented scenario: construct, clear((0,0,0)),
draw_rectangle(10,10,20,20,(255,0,0)). -/
def scenarioState : DriverState :=
  drawRectangle 10 10 20 20 ⟨255, 0, 0⟩ (clear ⟨0, 0, 0⟩ initialState)

/-! Arithmetic facts about the codec. -/

lemma and_255_eq_mod (x : Nat) : x &&& 255 = x % 256 := by
  have h := Nat.and_pow_two_sub_one_eq_mod x 8
  norm_num at h
  exact h

lemma and_63_eq_mod (x : Nat) : x &&& 63 = x % 64 := by
  have h := Nat.and_pow_two_sub_one_eq_mod x 6
  norm_num at h
  exact h

lemma and_31_eq_mod (x : Nat) : x &&& 31 = x % 32 := by
  have h := Nat.and_pow_two_sub_one_eq_mod x 5
  norm_num at h
  exact h

/-- The bit-or of the three shifted fields is plain addition, because the
fields occupy disjoint bit ranges. -/
lemma rgb565_linear (r g b : Nat) (hg : g ≤ 255) (hb : b ≤ 255) :
    rgb565 ⟨r, g, b⟩ = (r >>> 3) * 2048 + (g >>> 2) * 32 + (b >>> 3) := by
  have hgd : g >>> 2 = g / 4 := by
    rw [Nat.shiftRight_eq_div_pow]
  have hbd : b >>> 3 = b / 8 := by
    rw [Nat.shiftRight_eq_div_pow]
  have hc : g >>> 2 < 64 := by omega
  have he : b >>> 3 < 32 := by omega
  show ((r >>> 3) <<< 11) ||| ((g >>> 2) <<< 5) ||| (b >>> 3) = _
  rw [Nat.shiftLeft_eq, Nat.shiftLeft_eq]
  have h1 : (2 : Nat) ^ 11 * (r >>> 3) + (g >>> 2) * 2 ^ 5 =
      2 ^ 11 * (r >>> 3) ||| (g >>> 2) * 2 ^ 5 :=
    Nat.mul_add_lt_is_or (by norm_num; omega) (r >>> 3)
  have h2 : (2 : Nat) ^ 5 * ((r >>> 3) * 64 + (g >>> 2)) + (b >>> 3) =
      2 ^ 5 * ((r >>> 3) * 64 + (g >>> 2)) ||| (b >>> 3) :=
    Nat.mul_add_lt_is_or (by norm_num; omega) ((r >>> 3) * 64 + (g >>> 2))
  calc (r >>> 3) * 2 ^ 11 ||| (g >>> 2) * 2 ^ 5 ||| (b >>> 3)
      = (2 ^ 11 * (r >>> 3) ||| (g >>> 2) * 2 ^ 5) ||| (b >>> 3) := by
        rw [Nat.mul_comm]
    _ = (2 ^ 11 * (r >>> 3) + (g >>> 2) * 2 ^ 5) ||| (b >>> 3) := by rw [h1]
    _ = (2 ^ 5 * ((r >>> 3) * 64 + (g >>> 2))) ||| (b >>> 3) := by ring_nf
    _ = 2 ^ 5 * ((r >>> 3) * 64 + (g >>> 2)) + (b >>> 3) := by rw [← h2]
    _ = (r >>> 3) * 2048 + (g >>> 2) * 32 + (b >>> 3) := by ring

/-- C1: for every RGB triple with components in 0..255, the codec inside
update() produces exactly 2 bytes; the packed 16-bit value is
((r>>3)<<11) | ((g>>2)<<5) | (b>>3), emitted high byte first; decoding the
packed value recovers the truncated components exactly, in particular the
decoded red channel equals (r >> 3) << 3. -/
theorem c1_codec_rgb565 (r g b : Nat) (hr : r ≤ 255) (hg : g ≤ 255) (hb : b ≤ 255) :
    (encodePixel ⟨r, g, b⟩).length = 2 ∧
    (∃ hi lo,
      encodePixel ⟨r, g, b⟩ = [hi, lo] ∧
      hi * 256 + lo = ((r >>> 3) <<< 11) ||| ((g >>> 2) <<< 5) ||| (b >>> 3) ∧
      ((hi * 256 + lo) >>> 11) <<< 3 = (r >>> 3) <<< 3 ∧
      (((hi * 256 + lo) >>> 5) &&& 0x3F) <<< 2 = (g >>> 2) <<< 2 ∧
      ((hi * 256 + lo) &&& 0x1F) <<< 3 = (b >>> 3) <<< 3) := by
  have hv := rgb565_linear r g b hg hb
  have hrd : r >>> 3 = r / 8 := by
    rw [Nat.shiftRight_eq_div_pow]
  have hgd : g >>> 2 = g / 4 := by
    rw [Nat.shiftRight_eq_div_pow]
  have hbd : b >>> 3 = b / 8 := by
    rw [Nat.shiftRight_eq_div_pow]
  refine ⟨rfl, (rgb565 ⟨r, g, b⟩ >>> 8) &&& 0xFF, rgb565 ⟨r, g, b⟩ &&& 0xFF, rfl,
    ?_, ?_, ?_, ?_⟩
  · show _ = rgb565 ⟨r, g, b⟩
    rw [and_255_eq_mod, and_255_eq_mod, Nat.shiftRight_eq_div_pow]
    norm_num
    omega
  · rw [and_255_eq_mod, and_255_eq_mod, Nat.shiftRight_eq_div_pow,
      Nat.shiftRight_eq_div_pow, Nat.shiftLeft_eq, Nat.shiftLeft_eq]
    norm_num
    omega
  · rw [and_255_eq_mod, and_255_eq_mod, and_63_eq_mod, Nat.shiftRight_eq_div_pow,
      Nat.shiftRight_eq_div_pow, Nat.shiftLeft_eq, Nat.shiftLeft_eq]
    norm_num
    omega
  · rw [and_255_eq_mod, and_255_eq_mod, and_31_eq_mod, Nat.shiftRight_eq_div_pow,
      Nat.shiftLeft_eq, Nat.shiftLeft_eq]
    norm_num
    omega

/-- Witness for c1_codec_rgb565 at the concrete pixel (250, 130, 7). -/
theorem c1_codec_rgb565_witness :
    (encodePixel ⟨250, 130, 7⟩).length = 2 ∧
    (∃ hi lo,
      encodePixel ⟨250, 130, 7⟩ = [hi, lo] ∧
      hi * 256 + lo = ((250 >>> 3) <<< 11) ||| ((130 >>> 2) <<< 5) ||| (7 >>> 3) ∧
      ((hi * 256 + lo) >>> 11) <<< 3 = (250 >>> 3) <<< 3 ∧
      (((hi * 256 + lo) >>> 5) &&& 0x3F) <<< 2 = (130 >>> 2) <<< 2 ∧
      ((hi * 256 + lo) &&& 0x1F) <<< 3 = (7 >>> 3) <<< 3) :=
  c1_codec_rgb565 250 130 7 (by decide) (by decide) (by decide)

/-! List facts about the row-major encoding and the chunk slicing. -/

lemma flatMap_length_const {α : Type} (l : List α) (f : α → List Nat) (n : Nat)
    (h : ∀ a ∈ l, (f a).length = n) : (l.flatMap f).length = n * l.length := by
  induction l with
  | nil => simp
  | cons a t ih =>
      simp only [List.flatMap_cons, List.length_append, List.length_cons]
      rw [h a (by simp), ih fun x hx => h x (by simp [hx])]
      ring

lemma encodePixel_length (p : RGB) : (encodePixel p).length = 2 := rfl

lemma encodeRow_length (buf : Buffer) (y : Nat) :
    ((List.range WIDTH).flatMap fun x => encodePixel (buf x y)).length = 256 := by
  rw [flatMap_length_const (List.range WIDTH) (fun x => encodePixel (buf x y)) 2
    (fun a _ => encodePixel_length (buf a y)), List.length_range]
  rfl

/-- Every full-buffer conversion yields width * height * 2 = 32768 bytes. -/
lemma encodeBuffer_length (buf : Buffer) : (encodeBuffer buf).length = 32768 := by
  rw [show encodeBuffer buf = (List.range HEIGHT).flatMap
      (fun y => (List.range WIDTH).flatMap fun x => encodePixel (buf x y)) from rfl]
  rw [flatMap_length_const (List.range HEIGHT)
    (fun y => (List.range WIDTH).flatMap fun x => encodePixel (buf x y)) 256
    (fun y _ => encodeRow_length buf y), List.length_range]
  rfl

lemma flatMap_drop_const {α : Type} (f : α → List Nat) (n : Nat)
    (h : ∀ a, (f a).length = n) :
    ∀ (k : Nat) (l : List α), (l.flatMap f).drop (n * k) = (l.drop k).flatMap f := by
  intro k
  induction k with
  | zero => intro l; simp
  | succ k ih =>
      intro l
      cases l with
      | nil => simp
      | cons a t =>
          rw [List.flatMap_cons, show n * (k + 1) = n + n * k from by ring,
            ← List.drop_drop, List.drop_left' (h a), ih t, List.drop_succ_cons]

lemma join_chunks_aux (n : Nat) :
    ∀ (k : Nat) (l : List Nat), l.length ≤ k * n →
      (((List.range k).map fun i => (l.drop (i * n)).take n).flatten) = l := by
  intro k
  induction k with
  | zero =>
      intro l hl
      simp only [Nat.zero_mul, Nat.le_zero, List.length_eq_zero] at hl
      simp [hl]
  | succ k ih =>
      intro l hl
      rw [List.range_succ_eq_map, List.map_cons, List.map_map, List.flatten_cons,
        Nat.zero_mul, List.drop_zero]
      have hmap : (List.range k).map
            ((fun i => (l.drop (i * n)).take n) ∘ Nat.succ) =
          (List.range k).map fun i => ((l.drop n).drop (i * n)).take n := by
        refine List.map_congr_left fun i _ => ?_
        simp only [Function.comp]
        rw [List.drop_drop, Nat.succ_mul, Nat.add_comm]
      rw [hmap, ih (l.drop n) (by
        rw [List.length_drop]
        rw [Nat.succ_mul] at hl
        omega)]
      exact List.take_append_drop n l

/-- The chunk slices of _send_data reassemble to exactly the input stream:
no byte is dropped, duplicated or reordered. -/
lemma chunksOf_flatten (l : List Nat) : (chunksOf 4096 l).flatten = l := by
  refine join_chunks_aux 4096 _ l ?_
  omega

lemma chunksOf_length_le (l : List Nat) :
    ∀ ch ∈ chunksOf 4096 l, ch.length ≤ 4096 := by
  intro ch hch
  rw [chunksOf, List.mem_map] at hch
  obtain ⟨i, _, rfl⟩ := hch
  exact List.length_take_le _ _

/-! Trace lemmas for the transport layer. -/

lemma sendChunks_ok (chunks : List (List Nat)) :
    ∀ s : DriverState, s.spiOpen = true →
      sendChunks chunks s =
        (none, { s with trace := s.trace ++ chunks.map Event.spiWrite }) := by
  induction chunks with
  | nil => intro s _; simp [sendChunks]
  | cons c rest ih =>
      intro s hs
      have hstep : sendChunks (c :: rest) s = sendChunks rest (emit (.spiWrite c) s) := by
        rw [sendChunks, spiXfer, if_pos hs]
      rw [hstep, ih (emit (.spiWrite c) s) hs]
      simp [emit]

lemma sendData_ok (data : List Nat) (s : DriverState) (hs : s.spiOpen = true) :
    sendData data s =
      (none, { s with trace := s.trace ++ [Event.gpioDC true] ++
        (chunksOf 4096 data).map Event.spiWrite }) := by
  rw [sendData, sendChunks_ok (chunksOf 4096 data) (emit (.gpioDC true) s) hs]
  simp [emit]

lemma update_ok (s : DriverState) (hs : s.spiOpen = true) :
    update s = (none, { s with trace := s.trace ++ updateTraceEvents (bufAt s) }) := by
  have h1 : sendCommand 0x2C [] s =
      (none, emit (.spiWrite [0x2C]) (emit (.gpioDC false) s)) := by
    rw [sendCommand, spiXfer,
      if_pos (show (emit (.gpioDC false) s).spiOpen = true from hs)]
    rfl
  have h2 : update s = sendData (encodeBuffer (bufAt s))
      (emit (.spiWrite [0x2C]) (emit (.gpioDC false) s)) := by
    rw [update, h1]
  rw [h2, sendData_ok (encodeBuffer (bufAt s))
    (emit (.spiWrite [0x2C]) (emit (.gpioDC false) s)) hs]
  simp [updateTraceEvents, emit]

lemma update_closed (s : DriverState) (hs : s.spiOpen = false) :
    update s = (some PyError.transportClosed, emit (.gpioDC false) s) := by
  have h1 : sendCommand 0x2C [] s =
      (some PyError.transportClosed, emit (.gpioDC false) s) := by
    rw [sendCommand, spiXfer,
      if_neg (show ¬(emit (.gpioDC false) s).spiOpen = true from by
        show ¬s.spiOpen = true
        simp [hs])]
  rw [update, h1]

lemma range_drop_cons (m k : Nat) (h : k < m) :
    (List.range m).drop k = k :: (List.range m).drop (k + 1) := by
  rw [← List.getElem_cons_drop (List.range m) k (by simpa using h)]
  simp

/-- Where pixel (px, py) sits in the row-major update() stream: its two
bytes occupy offsets 2*(WIDTH*py+px) and the following one. -/
lemma encodeBuffer_pixel (buf : Buffer) (px py : Nat)
    (hx : px < WIDTH) (hy : py < HEIGHT) :
    ((encodeBuffer buf).drop (2 * (WIDTH * py + px))).take 2 =
      encodePixel (buf px py) := by
  have hx' : px < 128 := hx
  have hy' : py < 128 := hy
  have hidx : 2 * (WIDTH * py + px) = 256 * py + 2 * px := by
    show 2 * (128 * py + px) = 256 * py + 2 * px
    ring
  rw [show encodeBuffer buf = (List.range HEIGHT).flatMap
      (fun y => (List.range WIDTH).flatMap fun x => encodePixel (buf x y)) from rfl,
    hidx, ← List.drop_drop,
    flatMap_drop_const (fun y => (List.range WIDTH).flatMap fun x => encodePixel (buf x y))
      256 (fun y => encodeRow_length buf y) py (List.range HEIGHT),
    range_drop_cons HEIGHT py hy, List.flatMap_cons,
    List.drop_append_eq_append_drop, encodeRow_length buf py,
    Nat.sub_eq_zero_of_le (show 2 * px ≤ 256 by omega),
    flatMap_drop_const (fun x => encodePixel (buf x py))
      2 (fun a => encodePixel_length (buf a py)) px (List.range WIDTH),
    range_drop_cons WIDTH px hx, List.flatMap_cons, List.append_assoc]
  simp [encodePixel]

lemma filter_dcLow_map_spiWrite (cs : List (List Nat)) :
    (cs.map Event.spiWrite).filter (fun e => decide (e = Event.gpioDC false)) = [] := by
  induction cs with
  | nil => rfl
  | cons c t ih => simp only [List.map_cons, List.filter_cons, decide_eq_true_eq]; simp [ih]

/-- C2: for every buffer state with the bus open, update() issues exactly one
RAMWR command (opcode 0x2C, the single command-mode transition of the call)
and then streams exactly WIDTH*HEIGHT*2 = 32768 data bytes covering every
pixel of the 128 x 128 buffer in one pass, with no partial-update path. -/
theorem c2_update_single_ramwr_full_frame (s : DriverState) (hs : s.spiOpen = true) :
    (update s).1 = none ∧
    (update s).2.trace = s.trace ++ updateTraceEvents (bufAt s) ∧
    ((updateTraceEvents (bufAt s)).filter
      (fun e => decide (e = Event.gpioDC false))).length = 1 ∧
    (chunksOf 4096 (encodeBuffer (bufAt s))).flatten = encodeBuffer (bufAt s) ∧
    (encodeBuffer (bufAt s)).length = WIDTH * HEIGHT * 2 := by
  refine ⟨?_, ?_, ?_, chunksOf_flatten _, ?_⟩
  · rw [update_ok s hs]
  · rw [update_ok s hs]
  · rw [updateTraceEvents, List.filter_append, filter_dcLow_map_spiWrite]
    rfl
  · rw [encodeBuffer_length]
    rfl

/-- Witness for c2_update_single_ramwr_full_frame at the freshly constructed
driver state. -/
theorem c2_update_single_ramwr_full_frame_witness :
    (update initialState).1 = none ∧
    (update initialState).2.trace =
      initialState.trace ++ updateTraceEvents (bufAt initialState) ∧
    ((updateTraceEvents (bufAt initialState)).filter
      (fun e => decide (e = Event.gpioDC false))).length = 1 ∧
    (chunksOf 4096 (encodeBuffer (bufAt initialState))).flatten =
      encodeBuffer (bufAt initialState) ∧
    (encodeBuffer (bufAt initialState)).length = WIDTH * HEIGHT * 2 :=
  c2_update_single_ramwr_full_frame initialState rfl

/-- C7: _send_data writes any stream in chunks of at most 4096 bytes starting
at the even offsets i*4096; the chunks reassemble to exactly the stream, and
the two bytes of each encoded pixel (stream offsets 2k and 2k+1) always sit
adjacently inside one chunk, so no chunk boundary splits a pixel. -/
theorem c7_sendData_chunking (data : List Nat) (s : DriverState)
    (hs : s.spiOpen = true) (heven : 2 ∣ data.length) :
    (sendData data s).1 = none ∧
    (sendData data s).2.trace =
      s.trace ++ [Event.gpioDC true] ++ (chunksOf 4096 data).map Event.spiWrite ∧
    (chunksOf 4096 data).flatten = data ∧
    (∀ ch ∈ chunksOf 4096 data, ch.length ≤ 4096) ∧
    (∀ i, i < (data.length + 4095) / 4096 →
      (chunksOf 4096 data)[i]? = some ((data.drop (i * 4096)).take 4096) ∧
      2 ∣ i * 4096) ∧
    (∀ k, 2 * k + 1 < data.length →
      ∃ ch j, (chunksOf 4096 data)[(2 * k) / 4096]? = some ch ∧
        ch[j]? = data[2 * k]? ∧ ch[j + 1]? = data[2 * k + 1]?) := by
  refine ⟨?_, ?_, chunksOf_flatten data, chunksOf_length_le data, ?_, ?_⟩
  · rw [sendData_ok data s hs]
  · rw [sendData_ok data s hs]
  · intro i hi
    constructor
    · rw [chunksOf, List.getElem?_map, List.getElem?_range (by omega)]
      rfl
    · exact ⟨i * 2048, by ring⟩
  · intro k hk
    refine ⟨(data.drop ((2 * k) / 4096 * 4096)).take 4096, (2 * k) % 4096, ?_, ?_, ?_⟩
    · rw [chunksOf, List.getElem?_map, List.getElem?_range (by omega)]
      rfl
    · rw [List.getElem?_take, if_pos (by omega), List.getElem?_drop]
      congr 1
      omega
    · rw [List.getElem?_take, if_pos (by omega), List.getElem?_drop]
      congr 1
      omega

/-- Witness for c7_sendData_chunking at a concrete 4-byte stream. -/
theorem c7_sendData_chunking_witness :
    (sendData [1, 2, 3, 4] initialState).1 = none ∧
    (sendData [1, 2, 3, 4] initialState).2.trace =
      initialState.trace ++ [Event.gpioDC true] ++
        (chunksOf 4096 [1, 2, 3, 4]).map Event.spiWrite ∧
    (chunksOf 4096 [1, 2, 3, 4]).flatten = [1, 2, 3, 4] ∧
    (∀ ch ∈ chunksOf 4096 [1, 2, 3, 4], ch.length ≤ 4096) ∧
    (∀ i, i < (([1, 2, 3, 4] : List Nat).length + 4095) / 4096 →
      (chunksOf 4096 [1, 2, 3, 4])[i]? =
        some ((([1, 2, 3, 4] : List Nat).drop (i * 4096)).take 4096) ∧
      2 ∣ i * 4096) ∧
    (∀ k, 2 * k + 1 < ([1, 2, 3, 4] : List Nat).length →
      ∃ ch j, (chunksOf 4096 [1, 2, 3, 4])[(2 * k) / 4096]? = some ch ∧
        ch[j]? = ([1, 2, 3, 4] : List Nat)[2 * k]? ∧
        ch[j + 1]? = ([1, 2, 3, 4] : List Nat)[2 * k + 1]?) :=
  c7_sendData_chunking [1, 2, 3, 4] initialState rfl (by decide)

/-! Buffer aliasing lemmas. -/

lemma bufAt_mutateDraw (f : Buffer → Buffer) (s : DriverState)
    (h : s.drawRef = s.imageRef) : bufAt (mutateDraw f s) = f (bufAt s) := by
  show (if s.imageRef = s.drawRef then f (s.heap s.drawRef)
    else s.heap s.imageRef) = f (s.heap s.imageRef)
  rw [if_pos h.symm, h]

lemma clear_drawBuf (c : RGB) (s : DriverState) (px py : Nat)
    (hx : px ≤ 128) (hy : py ≤ 128) :
    drawBufAt (clear c s) px py = c := by
  show (if s.drawRef = s.drawRef then
      setRegion 0 0 (WIDTH : Int) (HEIGHT : Int) c (s.heap s.drawRef)
    else s.heap s.drawRef) px py = c
  rw [if_pos rfl]
  show (if (0 : Int) ≤ (px : Int) ∧ (px : Int) ≤ 128 ∧
      (0 : Int) ≤ (py : Int) ∧ (py : Int) ≤ 128
    then c else s.heap s.drawRef px py) = c
  rw [if_pos ⟨by omega, by omega, by omega, by omega⟩]

/-- C3 as written is false on the code: PIL rectangles are inclusive of the
second corner, so after clear((0,0,0)) and draw_rectangle(10,10,20,20,
(255,0,0)) the pixel (30, 10), which lies outside the half-open region
since 30 is not below 10+20, still encodes 0xF800 rather than 0x0000. -/
theorem c3_halfopen_region_counterexample :
    pixelStreamBytes scenarioState 30 10 = [0xF8, 0x00] ∧
    [0xF8, 0x00] ≠ encodePixel ⟨0, 0, 0⟩ ∧
    ¬ ((30 : Int) < 10 + 20) := by
  refine ⟨?_, by decide, by decide⟩
  rw [pixelStreamBytes,
    encodeBuffer_pixel (bufAt scenarioState) 30 10 (by decide) (by decide)]
  decide

/-- C3 (amended): draw_rectangle(x,y,w,h,fill) paints exactly the closed
region [x, x+w] x [y, y+h] (PIL fills inclusive of both corners): in the
following update() stream every pixel inside it encodes fill and every
pixel outside it is unchanged; in the documented scenario the pixels
encoding 0xF800 are exactly (10..30, 10..30) and all others 0x0000. -/
theorem c3_rect_closed_region :
    (∀ (x y w h : Int) (c : RGB) (s : DriverState) (px py : Nat),
      px < WIDTH → py < HEIGHT → s.drawRef = s.imageRef →
      pixelStreamBytes (drawRectangle x y w h c s) px py =
        if x ≤ (px : Int) ∧ (px : Int) ≤ x + w ∧ y ≤ (py : Int) ∧ (py : Int) ≤ y + h
        then encodePixel c else pixelStreamBytes s px py) ∧
    (∀ px py : Nat, px < WIDTH → py < HEIGHT →
      pixelStreamBytes scenarioState px py =
        if 10 ≤ px ∧ px ≤ 30 ∧ 10 ≤ py ∧ py ≤ 30
        then [0xF8, 0x00] else [0x00, 0x00]) := by
  constructor
  · intro x y w h c s px py hx hy href
    simp only [pixelStreamBytes]
    rw [encodeBuffer_pixel _ px py hx hy, encodeBuffer_pixel _ px py hx hy,
      show bufAt (drawRectangle x y w h c s) =
          setRegion x y (x + w) (y + h) c (bufAt s) from
        bufAt_mutateDraw (setRegion x y (x + w) (y + h) c) s href]
    simp only [setRegion]
    rw [apply_ite encodePixel]
  · intro px py hx hy
    have hx' : px < 128 := hx
    have hy' : py < 128 := hy
    simp only [pixelStreamBytes]
    rw [encodeBuffer_pixel _ px py hx hy]
    have hbuf : bufAt scenarioState =
        setRegion 10 10 30 30 ⟨255, 0, 0⟩
          (setRegion 0 0 (WIDTH : Int) (HEIGHT : Int) ⟨0, 0, 0⟩ blackBuf) := by
      rw [scenarioState, drawRectangle,
        bufAt_mutateDraw (setRegion 10 10 (10 + 20) (10 + 20) ⟨255, 0, 0⟩)
          (clear ⟨0, 0, 0⟩ initialState) rfl,
        clear, bufAt_mutateDraw
          (setRegion 0 0 (WIDTH : Int) (HEIGHT : Int) ⟨0, 0, 0⟩) initialState rfl]
      rfl
    rw [hbuf]
    simp only [setRegion]
    split_ifs with h1 h2 h3 h4 h5
    all_goals first
      | decide
      | (exfalso; omega)

/-- Witness for c3_rect_closed_region: one pixel inside the rectangle, one
outside it. -/
theorem c3_rect_closed_region_witness :
    pixelStreamBytes scenarioState 12 11 = [0xF8, 0x00] ∧
    pixelStreamBytes scenarioState 0 0 = [0x00, 0x00] := by
  constructor
  · rw [c3_rect_closed_region.2 12 11 (by decide) (by decide)]
    decide
  · rw [c3_rect_closed_region.2 0 0 (by decide) (by decide)]
    decide

/-! Lifecycle behaviour. -/

lemma cleanup_closes (s : DriverState) : (cleanup s).spiOpen = false := by
  by_cases hs : s.spiOpen = true
  · rw [cleanup, cleanupBody, update_ok (clear ⟨0, 0, 0⟩ s) hs]
    rfl
  · have hs' : s.spiOpen = false := by
      revert hs
      cases s.spiOpen <;> simp
    rw [cleanup, cleanupBody, update_closed (clear ⟨0, 0, 0⟩ s) hs']
    exact hs'

/-- C4 as written is false on the code: update() invoked on the freshly
constructed, never-initialised driver succeeds and transmits a full frame
over the bus opened in the constructor, instead of failing with NotReady. -/
theorem c4_preinit_update_succeeds_counterexample :
    (update initialState).1 = none ∧ (update initialState).2.trace ≠ [] := by
  constructor
  · rw [update_ok initialState rfl]
  · rw [update_ok initialState rfl]
    simp [updateTraceEvents]

/-- C4 (amended): the driver performs no lifecycle checks at all. Drawing
and update calls made before init_display() succeed (the bus is opened in
the constructor); after cleanup() the drawing primitives still succeed on
the in-memory buffer, and only bus-touching calls such as update() fail,
with the transport error of the closed SPI device rather than a
driver-level Closed error. -/
theorem c4_no_lifecycle_guards (s : DriverState) (c : RGB) (px py : Nat)
    (hx : px < WIDTH) (hy : py < HEIGHT) :
    (update initialState).1 = none ∧
    (cleanup s).spiOpen = false ∧
    (update (cleanup s)).1 = some PyError.transportClosed ∧
    drawBufAt (clear c (cleanup s)) px py = c := by
  have hx' : px < 128 := hx
  have hy' : py < 128 := hy
  refine ⟨?_, cleanup_closes s, ?_, ?_⟩
  · rw [update_ok initialState rfl]
  · rw [update_closed (cleanup s) (cleanup_closes s)]
  · exact clear_drawBuf c (cleanup s) px py (by omega) (by omega)

/-- Witness for c4_no_lifecycle_guards on the fresh driver state at the
origin pixel. -/
theorem c4_no_lifecycle_guards_witness :
    (update initialState).1 = none ∧
    (cleanup initialState).spiOpen = false ∧
    (update (cleanup initialState)).1 = some PyError.transportClosed ∧
    drawBufAt (clear ⟨7, 8, 9⟩ (cleanup initialState)) 0 0 = ⟨7, 8, 9⟩ :=
  c4_no_lifecycle_guards initialState ⟨7, 8, 9⟩ 0 0 (by decide) (by decide)

set_option maxRecDepth 8000 in
/-- C5: init_display() runs one strict startup sequence: reset high, a low
pulse of at least 10 ms, a high hold of at least 120 ms; SWRESET then at
least 150 ms; SLPOUT then at least 500 ms; the fixed configuration table;
the addressing window set to 0..WIDTH-1 and 0..HEIGHT-1 (0..127 on both
axes, the buffer extent); DISPON then at least 120 ms; followed by the
clear-and-update the function ends with. -/
theorem c5_init_sequence :
    (initDisplay initialState).1 = none ∧
    ∃ tLow tHigh tSw tSl tOn,
      10 ≤ tLow ∧ 120 ≤ tHigh ∧ 150 ≤ tSw ∧ 500 ≤ tSl ∧ 120 ≤ tOn ∧
      (initDisplay initialState).2.trace =
        hardResetEvents tLow tHigh ++
        (cmdEvents 0x01 [] ++ [.sleepMs tSw]) ++
        (cmdEvents 0x11 [] ++ [.sleepMs tSl]) ++
        configEvents ++ windowEvents ++ gammaNoronEvents ++
        (cmdEvents 0x29 [] ++ [.sleepMs tOn]) ++
        updateTraceEvents (setRegion 0 0 (WIDTH : Int) (HEIGHT : Int) ⟨0, 0, 0⟩ blackBuf) := by
  have h1 : runSteps initSteps initialState =
      (none, { initialState with trace := initScriptTrace }) := by
    rfl
  have h2 : initDisplay initialState =
      update (clear ⟨0, 0, 0⟩ (runSteps initSteps initialState).2) := by
    rw [initDisplay, h1]
  have hopen : (clear ⟨0, 0, 0⟩ (runSteps initSteps initialState).2).spiOpen = true := by
    rw [h1]
    rfl
  have hbuf : bufAt (clear ⟨0, 0, 0⟩ (runSteps initSteps initialState).2) =
      setRegion 0 0 (WIDTH : Int) (HEIGHT : Int) ⟨0, 0, 0⟩ blackBuf := by
    rw [clear, bufAt_mutateDraw
      (setRegion 0 0 (WIDTH : Int) (HEIGHT : Int) ⟨0, 0, 0⟩)
      (runSteps initSteps initialState).2 (by rw [h1]; rfl)]
    rw [h1]
    rfl
  refine ⟨?_, 10, 120, 150, 500, 120, by omega, by omega, by omega, by omega,
    by omega, ?_⟩
  · rw [h2, update_ok _ hopen]
  · rw [h2, update_ok _ hopen, hbuf, h1]
    show initScriptTrace ++ _ = _
    rw [initScriptTrace]

lemma flashScreen_ok (s : DriverState) (c : RGB) (d : Nat)
    (hopen : s.spiOpen = true) (href : s.drawRef = s.imageRef)
    (hlt : s.drawRef < s.nextRef) :
    (flashScreen c d s).1 = none ∧
    bufAt (flashScreen c d s).2 = bufAt s ∧
    (flashScreen c d s).2.trace =
      s.trace ++
      updateTraceEvents (setRegion 0 0 (WIDTH : Int) (HEIGHT : Int) c (bufAt s)) ++
      [Event.sleepMs d] ++ updateTraceEvents (bufAt s) := by
  have himg : s.imageRef < s.nextRef := href ▸ hlt
  refine ⟨?_, ?_, ?_⟩ <;>
    simp only [flashScreen, clear, mutateDraw, emit, bufAt, update_ok, hopen,
      href, hlt.ne', himg.ne, himg.ne', List.append_assoc, if_true, if_false,
      eq_self_iff_true, ite_true, ite_false, reduceIte]

lemma flashScreen_refs (s : DriverState) (c : RGB) (d : Nat)
    (hopen : s.spiOpen = true) :
    (flashScreen c d s).2.imageRef = s.nextRef ∧
    (flashScreen c d s).2.drawRef = s.drawRef := by
  constructor <;>
    simp only [flashScreen, clear, mutateDraw, emit, update_ok, hopen]

lemma bufAt_mutateDraw_ne (f : Buffer → Buffer) (s : DriverState)
    (h : s.imageRef ≠ s.drawRef) : bufAt (mutateDraw f s) = bufAt s := by
  show (if s.imageRef = s.drawRef then f (s.heap s.drawRef)
    else s.heap s.imageRef) = s.heap s.imageRef
  rw [if_neg h]

lemma drawBufAt_mutateDraw (f : Buffer → Buffer) (s : DriverState) :
    drawBufAt (mutateDraw f s) = f (drawBufAt s) := by
  show (if s.drawRef = s.drawRef then f (s.heap s.drawRef) else s.heap s.drawRef)
    = f (s.heap s.drawRef)
  rw [if_pos rfl]

/-- C6: for every color and duration, flash_screen on an open, freshly
aliased driver state clears to the color, updates, sleeps, restores the
saved copy and updates again; on return the buffer update() reads is
byte-for-byte (pointwise) identical to its pre-call contents. -/
theorem c6_flash_restores_buffer (s : DriverState) (c : RGB) (d : Nat)
    (hopen : s.spiOpen = true) (href : s.drawRef = s.imageRef)
    (hlt : s.drawRef < s.nextRef) :
    (flashScreen c d s).1 = none ∧
    bufAt (flashScreen c d s).2 = bufAt s ∧
    (flashScreen c d s).2.trace =
      s.trace ++
      updateTraceEvents (setRegion 0 0 (WIDTH : Int) (HEIGHT : Int) c (bufAt s)) ++
      [Event.sleepMs d] ++ updateTraceEvents (bufAt s) :=
  flashScreen_ok s c d hopen href hlt

/-- Witness for c6_flash_restores_buffer on the fresh driver state. -/
theorem c6_flash_restores_buffer_witness :
    (flashScreen ⟨9, 9, 9⟩ 200 initialState).1 = none ∧
    bufAt (flashScreen ⟨9, 9, 9⟩ 200 initialState).2 = bufAt initialState ∧
    (flashScreen ⟨9, 9, 9⟩ 200 initialState).2.trace =
      initialState.trace ++
      updateTraceEvents
        (setRegion 0 0 (WIDTH : Int) (HEIGHT : Int) ⟨9, 9, 9⟩ (bufAt initialState)) ++
      [Event.sleepMs 200] ++ updateTraceEvents (bufAt initialState) :=
  c6_flash_restores_buffer initialState ⟨9, 9, 9⟩ 200 rfl rfl (by decide)

/-- C9: cleanup() tears down in order (clear to black, push the blanked
frame, release the bus, assert reset low), leaves the bus closed, and a
second call hits an internal transport exception yet still returns
normally, having only toggled the DC line: errors are swallowed, the call
is idempotent in that it always returns. -/
theorem c9_cleanup_order_swallow_idempotent (s : DriverState)
    (hopen : s.spiOpen = true) (href : s.drawRef = s.imageRef) :
    (cleanup s).trace =
      s.trace ++
      updateTraceEvents
        (setRegion 0 0 (WIDTH : Int) (HEIGHT : Int) ⟨0, 0, 0⟩ (bufAt s)) ++
      [Event.spiClose, Event.gpioReset false] ∧
    (cleanup s).spiOpen = false ∧
    (cleanupBody (cleanup s)).1 = some PyError.transportClosed ∧
    (cleanup (cleanup s)).trace = (cleanup s).trace ++ [Event.gpioDC false] := by
  refine ⟨?_, cleanup_closes s, ?_, ?_⟩
  · simp only [cleanup, cleanupBody, clear, mutateDraw, emit, bufAt, update_ok,
      hopen, href, List.append_assoc, if_true, if_false, eq_self_iff_true,
      ite_true, ite_false, reduceIte, List.cons_append, List.singleton_append,
      List.nil_append]
  · rw [cleanupBody, update_closed (clear ⟨0, 0, 0⟩ (cleanup s)) (cleanup_closes s)]
  · rw [show cleanup (cleanup s) = emit (.gpioDC false) (clear ⟨0, 0, 0⟩ (cleanup s)) from by
      rw [cleanup, cleanupBody, update_closed (clear ⟨0, 0, 0⟩ (cleanup s)) (cleanup_closes s)]]
    rfl

/-- Witness for c9_cleanup_order_swallow_idempotent on the fresh state. -/
theorem c9_cleanup_order_swallow_idempotent_witness :
    (cleanup initialState).trace =
      initialState.trace ++
      updateTraceEvents
        (setRegion 0 0 (WIDTH : Int) (HEIGHT : Int) ⟨0, 0, 0⟩ (bufAt initialState)) ++
      [Event.spiClose, Event.gpioReset false] ∧
    (cleanup initialState).spiOpen = false ∧
    (cleanupBody (cleanup initialState)).1 = some PyError.transportClosed ∧
    (cleanup (cleanup initialState)).trace =
      (cleanup initialState).trace ++ [Event.gpioDC false] :=
  c9_cleanup_order_swallow_idempotent initialState rfl rfl

/-- C10 fails on the code: after flash_screen, self.image names the restored
copy while self.draw still mutates the original object, so a drawing call
followed by update() transmits the stale restored frame without the new
drawing. -/
theorem c10_draw_after_flash_goes_to_stale_object :
    (flashScreen ⟨255, 255, 255⟩ 100 initialState).2.imageRef ≠
      (flashScreen ⟨255, 255, 255⟩ 100 initialState).2.drawRef ∧
    drawBufAt (drawRectangle 0 0 10 10 ⟨255, 0, 0⟩
      (flashScreen ⟨255, 255, 255⟩ 100 initialState).2) 0 0 = ⟨255, 0, 0⟩ ∧
    bufAt (drawRectangle 0 0 10 10 ⟨255, 0, 0⟩
      (flashScreen ⟨255, 255, 255⟩ 100 initialState).2) 0 0 = ⟨0, 0, 0⟩ ∧
    pixelStreamBytes (drawRectangle 0 0 10 10 ⟨255, 0, 0⟩
      (flashScreen ⟨255, 255, 255⟩ 100 initialState).2) 0 0 = encodePixel ⟨0, 0, 0⟩ ∧
    encodePixel ⟨0, 0, 0⟩ ≠ encodePixel ⟨255, 0, 0⟩ := by
  have hrefs := flashScreen_refs initialState ⟨255, 255, 255⟩ 100 rfl
  have hflash := flashScreen_ok initialState ⟨255, 255, 255⟩ 100 rfl rfl (by decide)
  have hne : (flashScreen ⟨255, 255, 255⟩ 100 initialState).2.imageRef ≠
      (flashScreen ⟨255, 255, 255⟩ 100 initialState).2.drawRef := by
    rw [hrefs.1, hrefs.2]
    decide
  have hpd : bufAt (drawRectangle 0 0 10 10 ⟨255, 0, 0⟩
      (flashScreen ⟨255, 255, 255⟩ 100 initialState).2) = bufAt initialState := by
    rw [drawRectangle, bufAt_mutateDraw_ne _ _ hne, hflash.2.1]
  refine ⟨hne, ?_, ?_, ?_, by decide⟩
  · rw [drawRectangle, drawBufAt_mutateDraw]
    simp only [setRegion]
    rw [if_pos ⟨by omega, by omega, by omega, by omega⟩]
  · rw [show bufAt (drawRectangle 0 0 10 10 ⟨255, 0, 0⟩
        (flashScreen ⟨255, 255, 255⟩ 100 initialState).2) 0 0 =
        bufAt initialState 0 0 from congrFun (congrFun hpd 0) 0]
    rfl
  · rw [pixelStreamBytes, encodeBuffer_pixel _ 0 0 (by decide) (by decide),
      show bufAt (drawRectangle 0 0 10 10 ⟨255, 0, 0⟩
        (flashScreen ⟨255, 255, 255⟩ 100 initialState).2) 0 0 =
        bufAt initialState 0 0 from congrFun (congrFun hpd 0) 0]
    rfl

/-- C8 is false on the code: draw_text with the unsupported size 23 falls
back to the font cached under size 10, even though the supported size 24 is
strictly nearer to 23, so rasterization is not at the nearest supported
size. -/
theorem c8_nearest_size_counterexample :
    fontKeyFor 23 = 10 ∧ 24 ∈ supportedSizes ∧
    ((23 : Int) - 24).natAbs < ((23 : Int) - 10).natAbs := by
  refine ⟨by decide, by decide, by decide⟩

/-- C8 (amended): draw_text never fails and uses supported sizes exactly,
but an unsupported size falls back silently to the default size 10 (the
lookup fonts.get(size, fonts.get(10))), not to the nearest supported
size. -/
theorem c8_fallback_to_default_size (size : Nat) :
    fontKeyFor size ∈ supportedSizes ∧
    (size ∈ supportedSizes → fontKeyFor size = size) ∧
    (size ∉ supportedSizes → fontKeyFor size = 10) := by
  by_cases h : size ∈ supportedSizes
  · exact ⟨by rw [fontKeyFor, if_pos h]; exact h,
      fun _ => by rw [fontKeyFor, if_pos h],
      fun hn => absurd h hn⟩
  · exact ⟨by rw [fontKeyFor, if_neg h]; decide,
      fun hs => absurd hs h,
      fun _ => by rw [fontKeyFor, if_neg h]⟩

/-- Witness for c8_fallback_to_default_size at the unsupported size 23. -/
theorem c8_fallback_to_default_size_witness :
    fontKeyFor 23 ∈ supportedSizes ∧
    (23 ∈ supportedSizes → fontKeyFor 23 = 23) ∧
    (23 ∉ supportedSizes → fontKeyFor 23 = 10) :=
  c8_fallback_to_default_size 23

end ST7735
